import Mathlib

/-!
# GTK compatibility helper (`webview::detail::gtk_compat`)

A shallow embedding of `core/include/webview/detail/platform/linux/gtk/compat.hh`.

The header is a set of static functions that forward, per toolkit generation
(`#if GTK_MAJOR_VERSION >= 4` / `#else`), to native GTK calls.  Each function of
`gtk_compat` is embedded as a program in the monad `Gtk`, which threads the toolkit
state, records every native call that is issued, and has no result when a native
call is made outside of its contract.

The native calls themselves are not part of the repository; their effect on the
toolkit state is modelled from the specification of the facade and from the
comments of the header, and every such definition says so.
-/

namespace Webview

/-- A live toolkit object (`GtkWidget *`, `GtkWindow *`, `GtkCssProvider *`, ...).
A nullable pointer argument is an `Option Handle`, `none` being `nullptr`. -/
abbrev Handle := Nat

/-- The toolkit generation the header is compiled against: `gtk4` is the branch
`GTK_MAJOR_VERSION >= 4` (equivalently, not `GTK_MAJOR_VERSION < 4`), `gtk3` the other. -/
inductive Generation where
  | gtk3
  | gtk4
deriving DecidableEq, Repr

/-- The argument of the older generation's `gtk_window_new`. -/
inductive GtkWindowType where
  | GTK_WINDOW_TOPLEVEL
  | GTK_WINDOW_POPUP
deriving DecidableEq, Repr

/-- The flags of a `GdkWindowHints` mask. -/
inductive GdkWindowHints where
  | GDK_HINT_POS
  | GDK_HINT_MIN_SIZE
  | GDK_HINT_MAX_SIZE
  | GDK_HINT_BASE_SIZE
  | GDK_HINT_ASPECT
  | GDK_HINT_RESIZE_INC
  | GDK_HINT_WIN_GRAVITY
  | GDK_HINT_USER_POS
  | GDK_HINT_USER_SIZE
deriving DecidableEq, Repr

/-- The fields of `GdkGeometry`.  The two aspect ratios are `gdouble` in C; the header
only ever zero-initialises them, so they are kept as rationals. -/
structure GdkGeometry where
  min_width : Int
  min_height : Int
  max_width : Int
  max_height : Int
  base_width : Int
  base_height : Int
  width_inc : Int
  height_inc : Int
  min_aspect : Rat
  max_aspect : Rat
  win_gravity : Nat
deriving DecidableEq

/-- The value of `GdkGeometry g{}`: every field zero. -/
def GdkGeometry.zero : GdkGeometry :=
  { min_width := 0, min_height := 0, max_width := 0, max_height := 0,
    base_width := 0, base_height := 0, width_inc := 0, height_inc := 0,
    min_aspect := 0, max_aspect := 0, win_gravity := 0 }

/-- The native calls the header issues, with the arguments it passes. -/
inductive NativeCall where
  /-- Either `gtk_init_check()` (`none`) or `gtk_init_check(argc, argv)`. -/
  | gtk_init_check (args : Option (Option Handle × Option Handle))
  /-- Either `gtk_window_new()` (`none`) or `gtk_window_new(type)`. -/
  | gtk_window_new (type : Option GtkWindowType)
  | gtk_window_set_child (window : Handle) (child : Option Handle)
  | gtk_window_get_child (window : Handle)
  | gtk_container_add (container : Handle) (widget : Option Handle)
  | gtk_container_remove (container : Handle) (widget : Option Handle)
  | gtk_widget_set_visible (widget : Handle) (visible : Bool)
  | gtk_widget_show (widget : Handle)
  | gtk_widget_hide (widget : Handle)
  | gtk_window_set_default_size (window : Handle) (width height : Int)
  | gtk_window_resize (window : Handle) (width height : Int)
  | gtk_window_set_geometry_hints (window : Handle) (geometry_widget : Option Handle)
      (geometry : GdkGeometry) (geom_mask : List GdkWindowHints)
  | gtk_widget_set_opacity (widget : Handle) (opacity : Rat)
  | gtk_window_set_keep_above (window : Handle) (setting : Bool)
  | gtk_widget_add_css_class (widget : Handle) (css_class : String)
  | gtk_widget_remove_css_class (widget : Handle) (css_class : String)
  | gtk_widget_get_style_context (widget : Handle)
  | gtk_style_context_add_class (context : Handle) (class_name : String)
  | gtk_style_context_remove_class (context : Handle) (class_name : String)
  | gtk_css_provider_load_from_string (provider : Handle) (text : List Nat)
  | gtk_css_provider_load_from_data (provider : Handle) (data : List Nat) (length : Int)
      (error : Option Handle)
  | gtk_style_context_add_provider (context : Handle) (provider : Handle) (priority : Nat)
deriving DecidableEq

/-- The state of the native toolkit, as far as the calls of the header read or write it.

* `children w`: the widgets directly contained in window `w`, as a container holds them
  (containment is recorded on the side of the window only);
* `visible x`: the visibility flag of widget `x`;
* `realized w`: whether window `w` has been set up (shown for the first time);
* `size w`: the actual size of window `w`, `none` as long as none was established;
* `default_size w`: the default size of window `w`, `none` as long as none was set;
* `geometry w`, `geometry_mask w`: the geometry hints of window `w` and which of them are set;
* `keep_above w`: the keep-above (stacking) hint of window `w`;
* `opacity x`: the opacity of widget `x`;
* `css_classes x`: the style-class set of widget `x`;
* `css_source p`: the style-rule source text loaded into provider `p`;
* `providers x`: the style providers attached to widget `x`, with their priorities;
* `display`: whether the toolkit can be brought up; `initialized`: whether it was;
* `next`: the handle the next created object gets. -/
structure Toolkit where
  display : Bool
  initialized : Bool
  next : Handle
  children : Handle → List Handle
  visible : Handle → Bool
  realized : Handle → Bool
  size : Handle → Option (Int × Int)
  default_size : Handle → Option (Int × Int)
  geometry : Handle → GdkGeometry
  geometry_mask : Handle → List GdkWindowHints
  keep_above : Handle → Bool
  opacity : Handle → Rat
  css_classes : Handle → Finset String
  css_source : Handle → List Nat
  providers : Handle → List (Handle × Nat)

/-- What running a program leaves behind: the native calls issued, in order, and the
value returned with the toolkit state reached; `result = none` when a native call was
made outside of its contract, for which the toolkit defines no outcome. -/
structure Outcome (α : Type) where
  calls : List NativeCall
  result : Option (α × Toolkit)

/-- A program over the toolkit. -/
def Gtk (α : Type) : Type := Toolkit → Outcome α

/-- Return a value, issuing no native call. -/
def Gtk.pure {α : Type} (a : α) : Gtk α :=
  fun s => { calls := [], result := some (a, s) }

/-- Sequencing: the second program runs in the state the first one reached. -/
def Gtk.bind {α β : Type} (m : Gtk α) (f : α → Gtk β) : Gtk β :=
  fun s =>
    match m s with
    | { calls := cs, result := none } => { calls := cs, result := none }
    | { calls := cs, result := some (a, s1) } =>
        { calls := cs ++ (f a s1).calls, result := (f a s1).result }

instance : Monad Gtk where
  pure := Gtk.pure
  bind := Gtk.bind

/-- One native call: it is recorded, and `effect` gives its return value and the state
it leaves (`none` outside of the call's contract). -/
def Gtk.native {α : Type} (c : NativeCall) (effect : Toolkit → Option (α × Toolkit)) :
    Gtk α :=
  fun s => { calls := [c], result := effect s }

/-! ## The native toolkit -/

/-- Modelled from the spec: native `gtk_init_check` (toolkit code, not in
the repository): the native bootstrap call (one-time toolkit bootstrap that
returns success or failure).  It succeeds exactly when the toolkit can be brought up. -/
def gtk_init_check (args : Option (Option Handle × Option Handle)) : Gtk Bool :=
  Gtk.native (.gtk_init_check args) fun s =>
    some (s.display, { s with initialized := s.initialized || s.display })

/-- Modelled from the spec: native `gtk_window_new` (toolkit code, not in
the repository): the native window constructor (a new top-level window handle
in an unshown state).  The window is a fresh object: no child, not visible, not set up,
no size, no default size, no geometry hint, not kept above, opaque, no style class and
no style provider. -/
def gtk_window_new (type : Option GtkWindowType) : Gtk Handle :=
  Gtk.native (.gtk_window_new type) fun s =>
    some (s.next,
      { s with
        next := s.next + 1
        children := Function.update s.children s.next []
        visible := Function.update s.visible s.next false
        realized := Function.update s.realized s.next false
        size := Function.update s.size s.next none
        default_size := Function.update s.default_size s.next none
        geometry := Function.update s.geometry s.next GdkGeometry.zero
        geometry_mask := Function.update s.geometry_mask s.next []
        keep_above := Function.update s.keep_above s.next false
        opacity := Function.update s.opacity s.next 1
        css_classes := Function.update s.css_classes s.next ∅
        providers := Function.update s.providers s.next [] })

/-- Modelled from the spec: native `gtk_window_set_child` (toolkit code, not in
the repository): the newer generation's direct set-child primitive, which makes
`child` the sole contained child of the window and clears the child when given null. -/
def gtk_window_set_child (window : Handle) (child : Option Handle) : Gtk Unit :=
  Gtk.native (.gtk_window_set_child window child) fun s =>
    some ((), { s with children := Function.update s.children window child.toList })

/-- Modelled from the spec: native `gtk_window_get_child` (toolkit code, not in
the repository): the newer generation's query for the current child of a
window (null when there is none).  The state is left as it is. -/
def gtk_window_get_child (window : Handle) : Gtk (Option Handle) :=
  Gtk.native (.gtk_window_get_child window) fun s =>
    some ((s.children window).head?, s)

/-- Modelled from the spec: native `gtk_container_add` (toolkit code, not in
the repository): the older generation's generic container-add call.  It takes a
widget, so a null argument is outside of its contract.  A window restricts containment
to one child: adding to a window that holds no child makes the widget its child, and
a window that already holds a child refuses the new one and keeps what it has. -/
def gtk_container_add (container : Handle) (widget : Option Handle) : Gtk Unit :=
  Gtk.native (.gtk_container_add container widget) fun s =>
    match widget with
    | none => none
    | some x =>
        if s.children container = [] then
          some ((), { s with children := Function.update s.children container [x] })
        else
          some ((), s)

/-- Modelled from the spec: native `gtk_container_remove` (toolkit code, not in
the repository): the older generation's generic container-remove call.  The
widget must be inside the container; it is then taken out.  For a widget that is not
inside the container (or a null argument) the outcome is undefined. -/
def gtk_container_remove (container : Handle) (widget : Option Handle) : Gtk Unit :=
  Gtk.native (.gtk_container_remove container widget) fun s =>
    match widget with
    | none => none
    | some x =>
        if x ∈ s.children container then
          some ((),
            { s with children := Function.update s.children container
                       ((s.children container).erase x) })
        else
          none

/-- Modelled from the spec: the effect of showing a widget (toolkit code, not in the
repository).  The widget becomes visible; a window shown for the first time is set
up, and unless a size was already established it takes its default size. -/
def Toolkit.show (s : Toolkit) (widget : Handle) : Toolkit :=
  { s with
    visible := Function.update s.visible widget true
    realized := Function.update s.realized widget true
    size := Function.update s.size widget
              (if s.realized widget then s.size widget
               else (s.size widget).orElse fun _ => s.default_size widget) }

/-- Modelled from the spec: the effect of hiding a widget (toolkit code, not in the
repository).  The widget stops being visible. -/
def Toolkit.hide (s : Toolkit) (widget : Handle) : Toolkit :=
  { s with visible := Function.update s.visible widget false }

/-- Modelled from the spec: native `gtk_widget_show` (toolkit code, not in
the repository): the older generation's distinct show call. -/
def gtk_widget_show (widget : Handle) : Gtk Unit :=
  Gtk.native (.gtk_widget_show widget) fun s => some ((), s.show widget)

/-- Modelled from the spec: native `gtk_widget_hide` (toolkit code, not in
the repository): the older generation's distinct hide call. -/
def gtk_widget_hide (widget : Handle) : Gtk Unit :=
  Gtk.native (.gtk_widget_hide widget) fun s => some ((), s.hide widget)

/-- Modelled from the spec: native `gtk_widget_set_visible` (toolkit code, not in
the repository): the single visibility setter, which shows or hides. -/
def gtk_widget_set_visible (widget : Handle) (visible : Bool) : Gtk Unit :=
  Gtk.native (.gtk_widget_set_visible widget visible) fun s =>
    some ((), if visible then s.show widget else s.hide widget)

/-- Modelled from the spec: native `gtk_window_set_default_size` (toolkit code, not in
the repository): the newer generation can only set a default size, which does
not resize a window (header comment: it cannot resize the window after it has been
set up).  The default size is what the window takes when it is first shown. -/
def gtk_window_set_default_size (window : Handle) (width height : Int) : Gtk Unit :=
  Gtk.native (.gtk_window_set_default_size window width height) fun s =>
    some ((), { s with default_size :=
                  Function.update s.default_size window (some (width, height)) })

/-- Modelled from the spec: native `gtk_window_resize` (toolkit code, not in
the repository): the older generation can resize a window at any time. -/
def gtk_window_resize (window : Handle) (width height : Int) : Gtk Unit :=
  Gtk.native (.gtk_window_resize window width height) fun s =>
    some ((), { s with size := Function.update s.size window (some (width, height)) })

/-- Modelled from the spec: native `gtk_window_set_geometry_hints` (toolkit code, not in
the repository): the older generation's geometry-hint mechanism.  The window
takes the given geometry, and exactly the hints named in the mask are set. -/
def gtk_window_set_geometry_hints (window : Handle) (geometry_widget : Option Handle)
    (geometry : GdkGeometry) (geom_mask : List GdkWindowHints) : Gtk Unit :=
  Gtk.native (.gtk_window_set_geometry_hints window geometry_widget geometry geom_mask)
    fun s =>
      some ((),
        { s with
          geometry := Function.update s.geometry window geometry
          geometry_mask := Function.update s.geometry_mask window geom_mask })

/-- Modelled from the spec: native `gtk_widget_set_opacity` (toolkit code, not in
the repository): sets widget transparency, an opacity within 0 and 1. -/
def gtk_widget_set_opacity (widget : Handle) (opacity : Rat) : Gtk Unit :=
  Gtk.native (.gtk_widget_set_opacity widget opacity) fun s =>
    some ((), { s with opacity := Function.update s.opacity widget (max 0 (min 1 opacity)) })

/-- Modelled from the spec: native `gtk_window_set_keep_above` (toolkit code, not in
the repository): the older generation's always-on-top window-manager hint. -/
def gtk_window_set_keep_above (window : Handle) (setting : Bool) : Gtk Unit :=
  Gtk.native (.gtk_window_set_keep_above window setting) fun s =>
    some ((), { s with keep_above := Function.update s.keep_above window setting })

/-- Modelled from the spec: native `gtk_widget_add_css_class` (toolkit code, not in
the repository): the newer generation's direct class-add primitive; the class
is put into the style-class set of the widget. -/
def gtk_widget_add_css_class (widget : Handle) (css_class : String) : Gtk Unit :=
  Gtk.native (.gtk_widget_add_css_class widget css_class) fun s =>
    some ((),
      { s with
        css_classes := Function.update s.css_classes widget
                         (insert css_class (s.css_classes widget)) })

/-- Modelled from the spec: native `gtk_widget_remove_css_class` (toolkit code, not in
the repository): the newer generation's direct class-remove primitive; the
class is taken out of the style-class set of the widget. -/
def gtk_widget_remove_css_class (widget : Handle) (css_class : String) : Gtk Unit :=
  Gtk.native (.gtk_widget_remove_css_class widget css_class) fun s =>
    some ((),
      { s with
        css_classes := Function.update s.css_classes widget
                         ((s.css_classes widget).erase css_class) })

/-- Modelled from the spec: native `gtk_widget_get_style_context` (toolkit code, not in
the repository): fetches the intermediate style-context object of a widget.
The context of a widget is identified with the widget: its class set and its providers
are the widget's. -/
def gtk_widget_get_style_context (widget : Handle) : Gtk Handle :=
  Gtk.native (.gtk_widget_get_style_context widget) fun s => some (widget, s)

/-- Modelled from the spec: native `gtk_style_context_add_class` (toolkit code, not in
the repository): mutates the class set on the style-context object (add). -/
def gtk_style_context_add_class (context : Handle) (class_name : String) : Gtk Unit :=
  Gtk.native (.gtk_style_context_add_class context class_name) fun s =>
    some ((),
      { s with
        css_classes := Function.update s.css_classes context
                         (insert class_name (s.css_classes context)) })

/-- Modelled from the spec: native `gtk_style_context_remove_class` (toolkit code, not in
the repository): mutates the class set on the style-context object (remove). -/
def gtk_style_context_remove_class (context : Handle) (class_name : String) : Gtk Unit :=
  Gtk.native (.gtk_style_context_remove_class context class_name) fun s =>
    some ((),
      { s with
        css_classes := Function.update s.css_classes context
                         ((s.css_classes context).erase class_name) })

/-- Modelled from the spec: native `gtk_css_provider_load_from_string` (toolkit code, not in
the repository): the newer generation loads from a plain string, the whole
NUL-terminated text (given here as its bytes, terminator left out). -/
def gtk_css_provider_load_from_string (provider : Handle) (text : List Nat) : Gtk Unit :=
  Gtk.native (.gtk_css_provider_load_from_string provider text) fun s =>
    some ((), { s with css_source := Function.update s.css_source provider text })

/-- Modelled from the spec: native `gtk_css_provider_load_from_data` (toolkit code, not in
the repository): the older generation's loader takes the explicit byte length
and an error sink.  It loads the first `length` bytes of the text, or the whole
NUL-terminated text when the length is negative. -/
def gtk_css_provider_load_from_data (provider : Handle) (data : List Nat) (length : Int)
    (error : Option Handle) : Gtk Unit :=
  Gtk.native (.gtk_css_provider_load_from_data provider data length error) fun s =>
    some ((),
      { s with
        css_source := Function.update s.css_source provider
                        (if length < 0 then data else data.take length.toNat) })

/-- Modelled from the spec: native `gtk_style_context_add_provider` (toolkit code, not in
the repository): registers the provider's rules as active for the widget of the
style context, at the given priority. -/
def gtk_style_context_add_provider (context : Handle) (provider : Handle) (priority : Nat) :
    Gtk Unit :=
  Gtk.native (.gtk_style_context_add_provider context provider priority) fun s =>
    some ((),
      { s with
        providers := Function.update s.providers context
                       (s.providers context ++ [(provider, priority)]) })

/-! ## The facade: `class gtk_compat` -/

namespace gtk_compat

/-- The function `gtk_compat::init_check`. -/
def init_check (gen : Generation) : Gtk Bool :=
  match gen with
  | .gtk4 => gtk_init_check none
  | .gtk3 => gtk_init_check (some (none, none))

/-- The function `gtk_compat::window_new`. -/
def window_new (gen : Generation) : Gtk Handle :=
  match gen with
  | .gtk4 => gtk_window_new none
  | .gtk3 => gtk_window_new (some .GTK_WINDOW_TOPLEVEL)

/-- The function `gtk_compat::window_set_child`. -/
def window_set_child (gen : Generation) (window : Handle) (widget : Option Handle) : Gtk Unit :=
  match gen with
  | .gtk4 => gtk_window_set_child window widget
  | .gtk3 => gtk_container_add window widget

/-- The function `gtk_compat::window_remove_child`. -/
def window_remove_child (gen : Generation) (window : Handle) (widget : Option Handle) :
    Gtk Unit :=
  match gen with
  | .gtk4 => do
      if (← gtk_window_get_child window) = widget then
        gtk_window_set_child window none
  | .gtk3 => gtk_container_remove window widget

/-- The function `gtk_compat::widget_set_visible`. -/
def widget_set_visible (gen : Generation) (widget : Handle) (visible : Bool) : Gtk Unit :=
  match gen with
  | .gtk4 => gtk_widget_set_visible widget (if visible then true else false)
  | .gtk3 =>
      if visible then
        gtk_widget_show widget
      else
        gtk_widget_hide widget

/-- The function `gtk_compat::window_set_size`. -/
def window_set_size (gen : Generation) (window : Handle) (width height : Int) : Gtk Unit :=
  match gen with
  | .gtk4 => gtk_window_set_default_size window width height
  | .gtk3 => gtk_window_resize window width height

/-- The function `gtk_compat::window_set_max_size`. -/
def window_set_max_size (gen : Generation) (window : Handle) (width height : Int) : Gtk Unit :=
  match gen with
  | .gtk3 =>
      let g : GdkGeometry := { GdkGeometry.zero with max_width := width, max_height := height }
      let h : List GdkWindowHints := [.GDK_HINT_MAX_SIZE]
      gtk_window_set_geometry_hints window none g h
  | .gtk4 => pure ()

/-- The function `gtk_compat::widget_set_opacity`. -/
def widget_set_opacity (_gen : Generation) (widget : Handle) (opacity : Rat) : Gtk Unit :=
  gtk_widget_set_opacity widget opacity

/-- The function `gtk_compat::window_set_keep_above`. -/
def window_set_keep_above (gen : Generation) (window : Handle) (setting : Bool) : Gtk Unit :=
  match gen with
  | .gtk3 => gtk_window_set_keep_above window setting
  | .gtk4 => pure ()

/-- The function `gtk_compat::widget_add_css_class`. -/
def widget_add_css_class (gen : Generation) (widget : Handle) (class_name : String) : Gtk Unit :=
  match gen with
  | .gtk4 => gtk_widget_add_css_class widget class_name
  | .gtk3 => do
      let context ← gtk_widget_get_style_context widget
      gtk_style_context_add_class context class_name

/-- The function `gtk_compat::widget_remove_css_class`. -/
def widget_remove_css_class (gen : Generation) (widget : Handle) (class_name : String) :
    Gtk Unit :=
  match gen with
  | .gtk4 => gtk_widget_remove_css_class widget class_name
  | .gtk3 => do
      let context ← gtk_widget_get_style_context widget
      gtk_style_context_remove_class context class_name

/-- The function `gtk_compat::css_provider_load_from_data`. -/
def css_provider_load_from_data (gen : Generation) (provider : Handle) (data : List Nat)
    (length : Int) : Gtk Unit :=
  match gen with
  | .gtk4 => gtk_css_provider_load_from_string provider data
  | .gtk3 => gtk_css_provider_load_from_data provider data length none

/-- The function `gtk_compat::widget_add_style_provider`. -/
def widget_add_style_provider (gen : Generation) (widget : Handle) (provider : Handle)
    (priority : Nat) : Gtk Unit :=
  match gen with
  | .gtk4 => do
      let context ← gtk_widget_get_style_context widget
      gtk_style_context_add_provider context provider priority
  | .gtk3 => do
      let context ← gtk_widget_get_style_context widget
      gtk_style_context_add_provider context provider priority

end gtk_compat

/-- The maximum-size geometry hint of a window: the maximum width and height of its
geometry when the mask has that hint set, nothing otherwise. -/
def Toolkit.max_size_hint (s : Toolkit) (window : Handle) : Option (Int × Int) :=
  if GdkWindowHints.GDK_HINT_MAX_SIZE ∈ s.geometry_mask window then
    some ((s.geometry window).max_width, (s.geometry window).max_height)
  else
    none

/-! ## Sequences of facade operations -/

/-- One call of a function of `gtk_compat`, with its arguments. -/
inductive FacadeOp where
  | init_check
  | window_new
  | window_set_child (window : Handle) (widget : Option Handle)
  | window_remove_child (window : Handle) (widget : Option Handle)
  | widget_set_visible (widget : Handle) (visible : Bool)
  | window_set_size (window : Handle) (width height : Int)
  | window_set_max_size (window : Handle) (width height : Int)
  | widget_set_opacity (widget : Handle) (opacity : Rat)
  | window_set_keep_above (window : Handle) (setting : Bool)
  | widget_add_css_class (widget : Handle) (class_name : String)
  | widget_remove_css_class (widget : Handle) (class_name : String)
  | css_provider_load_from_data (provider : Handle) (data : List Nat) (length : Int)
  | widget_add_style_provider (widget : Handle) (provider : Handle) (priority : Nat)
deriving DecidableEq

/-- Perform one facade operation, dropping what it returns. -/
def FacadeOp.run (gen : Generation) : FacadeOp → Gtk Unit
  | .init_check => do
      let _ ← gtk_compat.init_check gen
      pure ()
  | .window_new => do
      let _ ← gtk_compat.window_new gen
      pure ()
  | .window_set_child window widget => gtk_compat.window_set_child gen window widget
  | .window_remove_child window widget => gtk_compat.window_remove_child gen window widget
  | .widget_set_visible widget visible => gtk_compat.widget_set_visible gen widget visible
  | .window_set_size window width height => gtk_compat.window_set_size gen window width height
  | .window_set_max_size window width height =>
      gtk_compat.window_set_max_size gen window width height
  | .widget_set_opacity widget opacity => gtk_compat.widget_set_opacity gen widget opacity
  | .window_set_keep_above window setting => gtk_compat.window_set_keep_above gen window setting
  | .widget_add_css_class widget class_name =>
      gtk_compat.widget_add_css_class gen widget class_name
  | .widget_remove_css_class widget class_name =>
      gtk_compat.widget_remove_css_class gen widget class_name
  | .css_provider_load_from_data provider data length =>
      gtk_compat.css_provider_load_from_data gen provider data length
  | .widget_add_style_provider widget provider priority =>
      gtk_compat.widget_add_style_provider gen widget provider priority

/-- One facade operation within a sequence.  The functions of `gtk_compat` return `void`:
when the native call is outside of its contract the toolkit defines no effect for it,
the forward returns all the same and the next operation runs.  The call is recorded and
the sequence goes on in the state as it was. -/
def FacadeOp.step (gen : Generation) (op : FacadeOp) : Gtk Unit :=
  fun s =>
    match (op.run gen s).result with
    | some r => { calls := (op.run gen s).calls, result := some r }
    | none => { calls := (op.run gen s).calls, result := some ((), s) }

/-- Perform a sequence of facade operations, one after the other, to its end. -/
def FacadeOp.runAll (gen : Generation) : List FacadeOp → Gtk Unit
  | [] => pure ()
  | op :: ops => do
      op.step gen
      FacadeOp.runAll gen ops

/-- Whether a native call asks the toolkit to put a widget into a container. -/
def NativeCall.attaches : NativeCall → Bool
  | .gtk_container_add _ _ => true
  | .gtk_window_set_child _ (some _) => true
  | _ => false

/-- Whether the operation is a call of `window_set_child`. -/
def FacadeOp.setsChild : FacadeOp → Bool
  | .window_set_child _ _ => true
  | _ => false

/-- The widgets that a sequence hands to `window_set_child` for window `w`. -/
def FacadeOp.offered (w : Handle) : List FacadeOp → List Handle
  | [] => []
  | .window_set_child window (some x) :: ops =>
      if window = w then x :: FacadeOp.offered w ops else FacadeOp.offered w ops
  | _ :: ops => FacadeOp.offered w ops

/-- The scenario of the specification: create a window, size it `width` by `height`,
show it, and size it again, `width2` by `height2`.  The window is returned. -/
def resizeScenario (gen : Generation) (width height width2 height2 : Int) : Gtk Handle := do
  let win ← gtk_compat.window_new gen
  gtk_compat.window_set_size gen win width height
  gtk_compat.widget_set_visible gen win true
  gtk_compat.window_set_size gen win width2 height2
  pure win

/-! ## Sample states -/

/-- A toolkit in which no object has been created and nothing has been set. -/
def Toolkit.initial : Toolkit :=
  { display := true
    initialized := false
    next := 1
    children := fun _ => []
    visible := fun _ => false
    realized := fun _ => false
    size := fun _ => none
    default_size := fun _ => none
    geometry := fun _ => GdkGeometry.zero
    geometry_mask := fun _ => []
    keep_above := fun _ => false
    opacity := fun _ => 1
    css_classes := fun _ => ∅
    css_source := fun _ => []
    providers := fun _ => [] }

/-- The initial toolkit, except that window `1` holds widget `2` as its child. -/
def Toolkit.withChild : Toolkit :=
  { Toolkit.initial with children := Function.update Toolkit.initial.children 1 [2] }

/-- The initial toolkit, except that widget `1` carries the style class `x`. -/
def Toolkit.styled : Toolkit :=
  { Toolkit.initial with css_classes := Function.update Toolkit.initial.css_classes 1 {"x"} }

/-! ## Running programs -/

@[simp]
theorem bind_def {α β : Type} (m : Gtk α) (f : α → Gtk β) : (m >>= f) = Gtk.bind m f := rfl

@[simp]
theorem run_pure {α : Type} (a : α) (s : Toolkit) :
    (pure a : Gtk α) s = { calls := [], result := some (a, s) } := rfl

@[simp]
theorem run_native {α : Type} (c : NativeCall) (effect : Toolkit → Option (α × Toolkit))
    (s : Toolkit) : Gtk.native c effect s = { calls := [c], result := effect s } := rfl

@[simp]
theorem result_bind {α β : Type} (m : Gtk α) (f : α → Gtk β) (s : Toolkit) :
    (Gtk.bind m f s).result = (m s).result.bind fun p => (f p.1 p.2).result := by
  unfold Gtk.bind
  rcases m s with ⟨cs, _ | ⟨a, s1⟩⟩ <;> simp

@[simp]
theorem calls_bind {α β : Type} (m : Gtk α) (f : α → Gtk β) (s : Toolkit) :
    (Gtk.bind m f s).calls
      = (m s).calls ++ (m s).result.elim [] fun p => (f p.1 p.2).calls := by
  unfold Gtk.bind
  rcases m s with ⟨cs, _ | ⟨a, s1⟩⟩ <;> simp

/-! ## Window child -/

/-- Claim C1, as the code has it.  Let window `window` hold `child`.  Under the newer
generation `window_set_child window nullptr` leaves the window with no child.  Under
the older generation `window_set_child` issues exactly one container-add call, with the
widget as given, and no container-remove call; clearing is what `window_remove_child`
does there, by one container-remove call that leaves the window with no child. -/
theorem window_set_child_null_clears (s : Toolkit) (window child : Handle)
    (h : s.children window = [child]) :
    (∃ s1, (gtk_compat.window_set_child .gtk4 window none s).result = some ((), s1)
        ∧ s1.children window = []) ∧
    (∀ widget, (gtk_compat.window_set_child .gtk3 window widget s).calls
        = [NativeCall.gtk_container_add window widget]) ∧
    ((gtk_compat.window_remove_child .gtk3 window (some child) s).calls
        = [NativeCall.gtk_container_remove window (some child)]
      ∧ ∃ s1, (gtk_compat.window_remove_child .gtk3 window (some child) s).result
                = some ((), s1) ∧ s1.children window = []) := by
  refine ⟨⟨_, rfl, ?_⟩, fun _ => rfl, rfl, ?_⟩
  · simp
  · simp [gtk_compat.window_remove_child, gtk_container_remove, Gtk.native, h]

/-- Claim C1 as amended, at window `1` holding widget `2`. -/
theorem window_set_child_null_clears_witness :
    Toolkit.withChild.children 1 = [2] ∧
    (∃ s1, (gtk_compat.window_set_child .gtk4 1 none Toolkit.withChild).result = some ((), s1)
        ∧ s1.children 1 = []) ∧
    (∀ widget, (gtk_compat.window_set_child .gtk3 1 widget Toolkit.withChild).calls
        = [NativeCall.gtk_container_add 1 widget]) ∧
    ((gtk_compat.window_remove_child .gtk3 1 (some 2) Toolkit.withChild).calls
        = [NativeCall.gtk_container_remove 1 (some 2)]
      ∧ ∃ s1, (gtk_compat.window_remove_child .gtk3 1 (some 2) Toolkit.withChild).result
                = some ((), s1) ∧ s1.children 1 = []) :=
  ⟨rfl, window_set_child_null_clears Toolkit.withChild 1 2 rfl⟩

/-- Claim C1 fails as stated on the older generation: for window `1` holding widget `2`,
`window_set_child 1 nullptr` does not reach a state in which the window has no child,
and the one native call it issues is the container-add call with the null widget, not
a container-remove call. -/
theorem window_set_child_null_gtk3_counterexample :
    Toolkit.withChild.children 1 = [2] ∧
    (¬ ∃ s1, (gtk_compat.window_set_child .gtk3 1 none Toolkit.withChild).result = some ((), s1)
        ∧ s1.children 1 = []) ∧
    (gtk_compat.window_set_child .gtk3 1 none Toolkit.withChild).calls
        = [NativeCall.gtk_container_add 1 none] := by
  refine ⟨rfl, ?_, rfl⟩
  rintro ⟨s1, h, -⟩
  simp [gtk_compat.window_set_child, gtk_container_add, Gtk.native] at h

/-- Claim C2, as the code has it.  Under the newer generation, for every window and every
widget, `window_remove_child` detaches the widget if and only if it is the current
child of the window: the window has no child afterwards when it is, and keeps what
it holds when it is not.  Under the older generation `window_remove_child` issues the
container-remove call without a check, and when the widget is the current child of the
window, the window has no child afterwards. -/
theorem window_remove_child_detaches (s : Toolkit) (window : Handle) (widget : Option Handle) :
    (∃ s1, (gtk_compat.window_remove_child .gtk4 window widget s).result = some ((), s1)
        ∧ ((s.children window).head? = widget → s1.children window = [])
        ∧ ((s.children window).head? ≠ widget → s1.children window = s.children window)) ∧
    (gtk_compat.window_remove_child .gtk3 window widget s).calls
        = [NativeCall.gtk_container_remove window widget] ∧
    (∀ child, s.children window = [child] → widget = some child →
        ∃ s1, (gtk_compat.window_remove_child .gtk3 window widget s).result = some ((), s1)
          ∧ s1.children window = []) := by
  refine ⟨?_, rfl, ?_⟩
  · by_cases hc : (s.children window).head? = widget
    · refine ⟨{ s with children := Function.update s.children window [] }, ?_, ?_, ?_⟩
      · simp [gtk_compat.window_remove_child, gtk_window_get_child, gtk_window_set_child,
          Gtk.native, hc]
      · intro _; simp
      · intro hne; exact absurd hc hne
    · refine ⟨s, ?_, ?_, ?_⟩
      · simp [gtk_compat.window_remove_child, gtk_window_get_child,
          Gtk.native, hc]
      · intro he; exact absurd he hc
      · intro _; rfl
  · rintro child hch rfl
    simp [gtk_compat.window_remove_child, gtk_container_remove, Gtk.native, hch]

/-- Claim C2 fails as stated on the older generation: for window `1` holding widget `2`,
widget `3` is not the current child, and `window_remove_child 1 3` issues the
container-remove call all the same, for a widget that is not inside the window; no
state in which the child of the window is unchanged is reached. -/
theorem window_remove_child_gtk3_counterexample :
    Toolkit.withChild.children 1 = [2] ∧
    (gtk_compat.window_remove_child .gtk3 1 (some 3) Toolkit.withChild).calls
        = [NativeCall.gtk_container_remove 1 (some 3)] ∧
    ¬ ∃ s1, (gtk_compat.window_remove_child .gtk3 1 (some 3) Toolkit.withChild).result
              = some ((), s1) ∧ s1.children 1 = Toolkit.withChild.children 1 := by
  refine ⟨rfl, rfl, ?_⟩
  rintro ⟨s1, h, -⟩
  simp [gtk_compat.window_remove_child, gtk_container_remove, Gtk.native,
    Toolkit.withChild] at h

/-- Claim C3.  For both generations, every window `win` without a child and all widgets
`widgetA` and `widgetB`: `window_set_child win widgetA` followed by
`window_remove_child win widgetA` leaves `win` with no child, and a following
`window_set_child win widgetB` leaves `widgetB` as the sole child of `win`. -/
theorem set_remove_set_child (gen : Generation) (s : Toolkit) (win widgetA widgetB : Handle)
    (h : s.children win = []) :
    ∃ s1 s2,
      ((do gtk_compat.window_set_child gen win (some widgetA)
           gtk_compat.window_remove_child gen win (some widgetA)) s).result = some ((), s1)
      ∧ s1.children win = []
      ∧ (gtk_compat.window_set_child gen win (some widgetB) s1).result = some ((), s2)
      ∧ s2.children win = [widgetB] := by
  cases gen with
  | gtk3 =>
      refine ⟨{ s with
                children := Function.update (Function.update s.children win [widgetA]) win [] },
              { s with
                children := Function.update (Function.update
                  (Function.update s.children win [widgetA]) win []) win [widgetB] },
              ?_, ?_, ?_, ?_⟩
      · simp [gtk_compat.window_set_child, gtk_compat.window_remove_child, gtk_container_add,
          gtk_container_remove, Gtk.native, h]
      · simp
      · simp [gtk_compat.window_set_child, gtk_container_add, Gtk.native]
      · simp
  | gtk4 =>
      refine ⟨{ s with
                children := Function.update (Function.update s.children win [widgetA]) win [] },
              { s with
                children := Function.update (Function.update
                  (Function.update s.children win [widgetA]) win []) win [widgetB] },
              ?_, ?_, ?_, ?_⟩
      · simp [gtk_compat.window_set_child, gtk_compat.window_remove_child,
          gtk_window_set_child, gtk_window_get_child, Gtk.native,
          Gtk.native]
      · simp
      · simp [gtk_compat.window_set_child, gtk_window_set_child, Gtk.native]
      · simp

/-- Claim C3 under the older generation, for window `1` without a child and widgets `2`
and `3`. -/
theorem set_remove_set_child_witness :
    Toolkit.initial.children 1 = [] ∧
    ∃ s1 s2,
      ((do gtk_compat.window_set_child .gtk3 1 (some 2)
           gtk_compat.window_remove_child .gtk3 1 (some 2)) Toolkit.initial).result
        = some ((), s1)
      ∧ s1.children 1 = []
      ∧ (gtk_compat.window_set_child .gtk3 1 (some 3) s1).result = some ((), s2)
      ∧ s2.children 1 = [3] :=
  ⟨rfl, set_remove_set_child .gtk3 Toolkit.initial 1 2 3 rfl⟩

/-- Replacing the children of one window by at most one widget keeps every window that
holds at most one child so. -/
theorem update_children_single (s : Toolkit) (window w : Handle) (l : List Handle)
    (hl : l.length ≤ 1) (hinv : (s.children w).length ≤ 1) :
    (Function.update s.children window l w).length ≤ 1 := by
  by_cases hw : w = window
  · subst hw; simpa using hl
  · simpa [Function.update_noteq hw] using hinv

/-- Every facade operation that reaches a state keeps a window that holds at most one
child a window that holds at most one child. -/
theorem FacadeOp.run_single_child (gen : Generation) (op : FacadeOp) (s s1 : Toolkit)
    (w : Handle) (hinv : (s.children w).length ≤ 1)
    (hres : (op.run gen s).result = some ((), s1)) : (s1.children w).length ≤ 1 := by
  cases op with
  | window_set_child window widget =>
      cases gen with
      | gtk4 =>
          simp [FacadeOp.run, gtk_compat.window_set_child, gtk_window_set_child,
            Gtk.native] at hres
          subst hres
          exact update_children_single s window w _ (by cases widget <;> simp) hinv
      | gtk3 =>
          cases widget with
          | none =>
              simp [FacadeOp.run, gtk_compat.window_set_child, gtk_container_add,
                Gtk.native] at hres
          | some x =>
              by_cases hc : s.children window = []
              · simp [FacadeOp.run, gtk_compat.window_set_child, gtk_container_add,
                  Gtk.native, hc] at hres
                subst hres
                exact update_children_single s window w _ (by simp) hinv
              · simp [FacadeOp.run, gtk_compat.window_set_child, gtk_container_add,
                  Gtk.native, hc] at hres
                subst hres
                exact hinv
  | window_remove_child window widget =>
      cases gen with
      | gtk4 =>
          by_cases hc : (s.children window).head? = widget
          · simp [FacadeOp.run, gtk_compat.window_remove_child, gtk_window_get_child,
              gtk_window_set_child, Gtk.native, hc] at hres
            subst hres
            exact update_children_single s window w _ (by simp) hinv
          · simp [FacadeOp.run, gtk_compat.window_remove_child, gtk_window_get_child,
              Gtk.native, hc] at hres
            subst hres
            exact hinv
      | gtk3 =>
          cases widget with
          | none =>
              simp [FacadeOp.run, gtk_compat.window_remove_child, gtk_container_remove,
                Gtk.native] at hres
          | some x =>
              by_cases hc : x ∈ s.children window
              · simp [FacadeOp.run, gtk_compat.window_remove_child, gtk_container_remove,
                  Gtk.native, hc] at hres
                subst hres
                by_cases hw : w = window
                · subst hw
                  have := List.length_erase_of_mem hc
                  simp only [Function.update_same]
                  omega
                · simpa [Function.update_noteq hw] using hinv
              · simp [FacadeOp.run, gtk_compat.window_remove_child, gtk_container_remove,
                  Gtk.native, hc] at hres
  | widget_set_visible widget visible =>
      cases gen <;> cases visible <;>
        simp [FacadeOp.run, gtk_compat.widget_set_visible, gtk_widget_set_visible,
          gtk_widget_show, gtk_widget_hide, Gtk.native, Toolkit.show, Toolkit.hide] at hres <;>
        (subst hres; exact hinv)
  | window_new =>
      cases gen <;>
        simp [FacadeOp.run, gtk_compat.window_new, gtk_window_new, Gtk.native,
          run_pure] at hres <;>
        (subst hres; exact update_children_single s s.next w _ (by simp) hinv)
  | _ =>
      cases gen <;>
        simp [FacadeOp.run, gtk_compat.init_check,
          gtk_compat.window_set_size,
          gtk_compat.window_set_max_size, gtk_compat.widget_set_opacity,
          gtk_compat.window_set_keep_above, gtk_compat.widget_add_css_class,
          gtk_compat.widget_remove_css_class, gtk_compat.css_provider_load_from_data,
          gtk_compat.widget_add_style_provider,
          gtk_init_check, gtk_window_set_default_size, gtk_window_resize,
          gtk_window_set_geometry_hints, gtk_widget_set_opacity, gtk_window_set_keep_above,
          gtk_widget_add_css_class, gtk_widget_remove_css_class, gtk_widget_get_style_context,
          gtk_style_context_add_class, gtk_style_context_remove_class,
          gtk_css_provider_load_from_string, gtk_css_provider_load_from_data,
          gtk_style_context_add_provider,
          Gtk.native, run_pure] at hres <;>
        (subst hres; exact hinv)

/-- A child that replaces the children of one window is the only widget that can be new
among the children of a window. -/
theorem update_children_mem (s : Toolkit) (window w x : Handle) (l : List Handle)
    (hx : x ∈ Function.update s.children window l w) :
    x ∈ s.children w ∨ (w = window ∧ x ∈ l) := by
  by_cases hw : w = window
  · subst hw
    right
    exact ⟨rfl, by simpa using hx⟩
  · left
    simpa [Function.update_noteq hw] using hx

/-- Every facade operation that reaches a state brings a widget among the children of a
window only as the argument of `window_set_child` for that window. -/
theorem FacadeOp.run_children_mem (gen : Generation) (op : FacadeOp) (s s1 : Toolkit)
    (w x : Handle) (hres : (op.run gen s).result = some ((), s1)) (hx : x ∈ s1.children w) :
    x ∈ s.children w ∨ op = .window_set_child w (some x) := by
  cases op with
  | window_set_child window widget =>
      cases gen with
      | gtk4 =>
          simp [FacadeOp.run, gtk_compat.window_set_child, gtk_window_set_child,
            Gtk.native] at hres
          subst hres
          rcases update_children_mem s window w x _ hx with h | ⟨rfl, h⟩
          · exact Or.inl h
          · cases widget with
            | none => simp at h
            | some y =>
                simp at h
                subst h
                exact Or.inr rfl
      | gtk3 =>
          cases widget with
          | none =>
              simp [FacadeOp.run, gtk_compat.window_set_child, gtk_container_add,
                Gtk.native] at hres
          | some y =>
              by_cases hc : s.children window = []
              · simp [FacadeOp.run, gtk_compat.window_set_child, gtk_container_add,
                  Gtk.native, hc] at hres
                subst hres
                rcases update_children_mem s window w x _ hx with h | ⟨rfl, h⟩
                · exact Or.inl h
                · simp at h
                  subst h
                  exact Or.inr rfl
              · simp [FacadeOp.run, gtk_compat.window_set_child, gtk_container_add,
                  Gtk.native, hc] at hres
                subst hres
                exact Or.inl hx
  | window_remove_child window widget =>
      left
      cases gen with
      | gtk4 =>
          by_cases hc : (s.children window).head? = widget
          · simp [FacadeOp.run, gtk_compat.window_remove_child, gtk_window_get_child,
              gtk_window_set_child, Gtk.native, hc] at hres
            subst hres
            rcases update_children_mem s window w x _ hx with h | ⟨-, h⟩
            · exact h
            · simp at h
          · simp [FacadeOp.run, gtk_compat.window_remove_child, gtk_window_get_child,
              Gtk.native, hc] at hres
            subst hres
            exact hx
      | gtk3 =>
          cases widget with
          | none =>
              simp [FacadeOp.run, gtk_compat.window_remove_child, gtk_container_remove,
                Gtk.native] at hres
          | some y =>
              by_cases hc : y ∈ s.children window
              · simp [FacadeOp.run, gtk_compat.window_remove_child, gtk_container_remove,
                  Gtk.native, hc] at hres
                subst hres
                rcases update_children_mem s window w x _ hx with h | ⟨rfl, h⟩
                · exact h
                · exact List.mem_of_mem_erase h
              · simp [FacadeOp.run, gtk_compat.window_remove_child, gtk_container_remove,
                  Gtk.native, hc] at hres
  | widget_set_visible widget visible =>
      left
      cases gen <;> cases visible <;>
        simp [FacadeOp.run, gtk_compat.widget_set_visible, gtk_widget_set_visible,
          gtk_widget_show, gtk_widget_hide, Gtk.native, Toolkit.show, Toolkit.hide] at hres <;>
        (subst hres; exact hx)
  | window_new =>
      left
      cases gen <;>
        simp [FacadeOp.run, gtk_compat.window_new, gtk_window_new, Gtk.native] at hres <;>
        (subst hres
         rcases update_children_mem s s.next w x _ hx with h | ⟨-, h⟩
         · exact h
         · simp at h)
  | _ =>
      left
      cases gen <;>
        simp [FacadeOp.run, gtk_compat.init_check,
          gtk_compat.window_set_size,
          gtk_compat.window_set_max_size, gtk_compat.widget_set_opacity,
          gtk_compat.window_set_keep_above, gtk_compat.widget_add_css_class,
          gtk_compat.widget_remove_css_class, gtk_compat.css_provider_load_from_data,
          gtk_compat.widget_add_style_provider,
          gtk_init_check, gtk_window_set_default_size, gtk_window_resize,
          gtk_window_set_geometry_hints, gtk_widget_set_opacity, gtk_window_set_keep_above,
          gtk_widget_add_css_class, gtk_widget_remove_css_class, gtk_widget_get_style_context,
          gtk_style_context_add_class, gtk_style_context_remove_class,
          gtk_css_provider_load_from_string, gtk_css_provider_load_from_data,
          gtk_style_context_add_provider, Gtk.native] at hres <;>
        (subst hres; exact hx)

/-- Only `window_set_child` issues a native call that attaches a widget, and it issues
one such call at most. -/
theorem FacadeOp.run_attaches (gen : Generation) (op : FacadeOp) (s : Toolkit) :
    (op.run gen s).calls.countP NativeCall.attaches ≤ [op].countP FacadeOp.setsChild := by
  cases op with
  | window_set_child window widget =>
      cases gen <;> cases widget <;>
        simp [FacadeOp.run, gtk_compat.window_set_child, gtk_window_set_child,
          gtk_container_add, NativeCall.attaches, FacadeOp.setsChild]
  | window_remove_child window widget =>
      cases gen with
      | gtk4 =>
          by_cases hc : (s.children window).head? = widget <;>
            simp [FacadeOp.run, gtk_compat.window_remove_child, gtk_window_get_child,
              gtk_window_set_child, NativeCall.attaches, hc]
      | gtk3 =>
          simp [FacadeOp.run, gtk_compat.window_remove_child, gtk_container_remove,
            NativeCall.attaches]
  | widget_set_visible widget visible =>
      cases gen <;> cases visible <;>
        simp [FacadeOp.run, gtk_compat.widget_set_visible, gtk_widget_set_visible,
          gtk_widget_show, gtk_widget_hide, NativeCall.attaches]
  | _ =>
      cases gen <;>
        simp [FacadeOp.run, gtk_compat.init_check, gtk_compat.window_new,
          gtk_compat.window_set_size,
          gtk_compat.window_set_max_size, gtk_compat.widget_set_opacity,
          gtk_compat.window_set_keep_above, gtk_compat.widget_add_css_class,
          gtk_compat.widget_remove_css_class, gtk_compat.css_provider_load_from_data,
          gtk_compat.widget_add_style_provider,
          gtk_init_check, gtk_window_new, gtk_window_set_default_size, gtk_window_resize,
          gtk_window_set_geometry_hints, gtk_widget_set_opacity, gtk_window_set_keep_above,
          gtk_widget_add_css_class, gtk_widget_remove_css_class, gtk_widget_get_style_context,
          gtk_style_context_add_class, gtk_style_context_remove_class,
          gtk_css_provider_load_from_string, gtk_css_provider_load_from_data,
          gtk_style_context_add_provider, NativeCall.attaches]

/-- An operation within a sequence always reaches a state: the one its forward reaches,
or the state as it was when the native call is outside of its contract. -/
theorem FacadeOp.step_result (gen : Generation) (op : FacadeOp) (s : Toolkit) :
    ∃ s1, (op.step gen s).result = some ((), s1)
      ∧ (s1 = s ∨ (op.run gen s).result = some ((), s1)) := by
  unfold FacadeOp.step
  cases h : (op.run gen s).result with
  | none => exact ⟨s, rfl, Or.inl rfl⟩
  | some r => exact ⟨r.2, rfl, Or.inr rfl⟩

/-- An operation within a sequence issues the native calls of its forward. -/
theorem FacadeOp.step_calls (gen : Generation) (op : FacadeOp) (s : Toolkit) :
    (op.step gen s).calls = (op.run gen s).calls := by
  unfold FacadeOp.step
  cases (op.run gen s).result <;> rfl

/-- What a later part of a sequence hands to `window_set_child` the whole sequence does. -/
theorem FacadeOp.offered_cons (w x : Handle) (op : FacadeOp) (ops : List FacadeOp)
    (h : x ∈ FacadeOp.offered w ops ∨ op = .window_set_child w (some x)) :
    x ∈ FacadeOp.offered w (op :: ops) := by
  rcases h with h | rfl
  · cases op with
    | window_set_child window widget =>
        cases widget with
        | none => simpa [FacadeOp.offered] using h
        | some y =>
            by_cases hw : window = w
            · simp [FacadeOp.offered, hw, h]
            · simpa [FacadeOp.offered, hw] using h
    | _ => simpa [FacadeOp.offered] using h
  · simp [FacadeOp.offered]

theorem Toolkit.show_show (s : Toolkit) (w : Handle) : (s.show w).show w = s.show w := by
  simp [Toolkit.show]

theorem Toolkit.hide_hide (s : Toolkit) (w : Handle) : (s.hide w).hide w = s.hide w := by
  simp [Toolkit.hide]

/-- Claim C5.  For both generations and every widget `w`, whatever its visibility:
`widget_set_visible w true` followed by `widget_set_visible w false` leaves `w` not
visible, the reverse order leaves it visible, and calling `widget_set_visible w v`
twice reaches the state that calling it once reaches. -/
theorem widget_set_visible_toggle (gen : Generation) (s : Toolkit) (w : Handle) :
    (∃ s1, ((do gtk_compat.widget_set_visible gen w true
                gtk_compat.widget_set_visible gen w false) s).result = some ((), s1)
        ∧ s1.visible w = false) ∧
    (∃ s1, ((do gtk_compat.widget_set_visible gen w false
                gtk_compat.widget_set_visible gen w true) s).result = some ((), s1)
        ∧ s1.visible w = true) ∧
    (∀ v, ((do gtk_compat.widget_set_visible gen w v
               gtk_compat.widget_set_visible gen w v) s).result
          = (gtk_compat.widget_set_visible gen w v s).result) := by
  refine ⟨⟨(s.show w).hide w, ?_, ?_⟩, ⟨(s.hide w).show w, ?_, ?_⟩, ?_⟩
  · cases gen <;>
      simp [gtk_compat.widget_set_visible, gtk_widget_set_visible, gtk_widget_show,
        gtk_widget_hide, Gtk.native]
  · simp [Toolkit.hide]
  · cases gen <;>
      simp [gtk_compat.widget_set_visible, gtk_widget_set_visible, gtk_widget_show,
        gtk_widget_hide, Gtk.native]
  · simp [Toolkit.show]
  · intro v
    cases gen <;> cases v <;>
      simp [gtk_compat.widget_set_visible, gtk_widget_set_visible, gtk_widget_show,
        gtk_widget_hide, Gtk.native, Toolkit.show_show,
        Toolkit.hide_hide]

/-! ## Style classes -/

/-- Claim C6, as the code has it.  For both generations, every widget and every class name
that is not in the style-class set of the widget: `widget_add_css_class` followed at once
by `widget_remove_css_class` of the same name leaves the style-class set of the widget
equal to what it was before. -/
theorem add_remove_css_class (gen : Generation) (s : Toolkit) (widget : Handle)
    (class_name : String) (h : class_name ∉ s.css_classes widget) :
    ∃ s1, ((do gtk_compat.widget_add_css_class gen widget class_name
               gtk_compat.widget_remove_css_class gen widget class_name) s).result
            = some ((), s1)
      ∧ s1.css_classes widget = s.css_classes widget := by
  refine ⟨{ s with
            css_classes := Function.update s.css_classes widget
              ((insert class_name (s.css_classes widget)).erase class_name) }, ?_, ?_⟩
  · cases gen <;>
      simp [gtk_compat.widget_add_css_class, gtk_compat.widget_remove_css_class,
        gtk_widget_add_css_class, gtk_widget_remove_css_class, gtk_widget_get_style_context,
        gtk_style_context_add_class, gtk_style_context_remove_class, Gtk.native,
        Gtk.native]
  · simp [Finset.erase_insert h]

/-- Claim C6 as amended, for widget `1` without a style class and the class `x`. -/
theorem add_remove_css_class_witness :
    "x" ∉ Toolkit.initial.css_classes 1 ∧
    ∃ s1, ((do gtk_compat.widget_add_css_class .gtk3 1 "x"
               gtk_compat.widget_remove_css_class .gtk3 1 "x") Toolkit.initial).result
            = some ((), s1)
      ∧ s1.css_classes 1 = Toolkit.initial.css_classes 1 :=
  ⟨by simp [Toolkit.initial],
    add_remove_css_class .gtk3 Toolkit.initial 1 "x" (by simp [Toolkit.initial])⟩

/-- Claim C6 fails as stated: widget `1` carries the class `x`; on both generations adding
`x` and removing it at once leaves the widget without any class, which is not the
style-class set it had before. -/
theorem add_remove_css_class_counterexample :
    "x" ≠ "" ∧ Toolkit.styled.css_classes 1 = {"x"} ∧
    ∀ gen, ∃ s1, ((do gtk_compat.widget_add_css_class gen 1 "x"
                      gtk_compat.widget_remove_css_class gen 1 "x") Toolkit.styled).result
                  = some ((), s1)
      ∧ s1.css_classes 1 = ∅
      ∧ s1.css_classes 1 ≠ Toolkit.styled.css_classes 1 := by
  refine ⟨by decide, by simp [Toolkit.styled], fun gen => ?_⟩
  refine ⟨{ Toolkit.styled with
            css_classes := Function.update Toolkit.styled.css_classes 1 ∅ }, ?_, ?_, ?_⟩
  · cases gen <;>
      simp [gtk_compat.widget_add_css_class, gtk_compat.widget_remove_css_class,
        gtk_widget_add_css_class, gtk_widget_remove_css_class, gtk_widget_get_style_context,
        gtk_style_context_add_class, gtk_style_context_remove_class, Gtk.native,
        Gtk.native, Toolkit.styled]
  · simp
  · simpa [Toolkit.styled] using (Finset.singleton_ne_empty "x").symm

/-! ## Window size, maximum size and stacking -/

/-- Claim C7.  Under the newer generation `window_set_max_size` issues no native call,
raises no error and leaves the whole toolkit state as it was, for every window and all
integers `width` and `height`.  Under the older generation it issues one geometry-hint
call whose mask names the maximum-size hint only, after which the maximum-size hint of
the window is exactly `(width, height)`, no other hint of the window is set, and the
actual and default sizes are as before. -/
theorem window_set_max_size_effect (s : Toolkit) (window : Handle) (width height : Int) :
    gtk_compat.window_set_max_size .gtk4 window width height s
        = { calls := [], result := some ((), s) } ∧
    (gtk_compat.window_set_max_size .gtk3 window width height s).calls
        = [NativeCall.gtk_window_set_geometry_hints window none
            { GdkGeometry.zero with max_width := width, max_height := height }
            [GdkWindowHints.GDK_HINT_MAX_SIZE]] ∧
    ∃ s1, (gtk_compat.window_set_max_size .gtk3 window width height s).result = some ((), s1)
      ∧ s1.max_size_hint window = some (width, height)
      ∧ s1.geometry_mask window = [GdkWindowHints.GDK_HINT_MAX_SIZE]
      ∧ s1.size = s.size ∧ s1.default_size = s.default_size := by
  refine ⟨rfl, rfl, _, rfl, ?_, ?_, rfl, rfl⟩
  · simp [Toolkit.max_size_hint]
  · simp

/-- Claim C8.  Under the newer generation `window_set_keep_above` issues no native call,
raises no error and leaves the whole toolkit state as it was, for every window and
every setting.  Under the older generation it issues the keep-above call, after which
the keep-above hint of the window is exactly the given setting. -/
theorem window_set_keep_above_effect (s : Toolkit) (window : Handle) (setting : Bool) :
    gtk_compat.window_set_keep_above .gtk4 window setting s
        = { calls := [], result := some ((), s) } ∧
    (gtk_compat.window_set_keep_above .gtk3 window setting s).calls
        = [NativeCall.gtk_window_set_keep_above window setting] ∧
    ∃ s1, (gtk_compat.window_set_keep_above .gtk3 window setting s).result = some ((), s1)
      ∧ s1.keep_above window = setting := by
  refine ⟨rfl, rfl, _, rfl, ?_⟩
  simp

/-- Claim C9.  Create a window, size it `width` by `height`, show it, and size it again,
`width2` by `height2` (the specification takes 640 by 480 and 1024 by 768).  Under the
older generation the shown window has the second size: `window_set_size` resizes the
actual window at any time.  Under the newer generation `window_set_size` only writes
the default size, so the shown window keeps the first size as its actual size. -/
theorem resize_after_show (s : Toolkit) (width height width2 height2 : Int) :
    (∃ s1, (resizeScenario .gtk3 width height width2 height2 s).result = some (s.next, s1)
        ∧ s1.visible s.next = true ∧ s1.size s.next = some (width2, height2)) ∧
    (∃ s1, (resizeScenario .gtk4 width height width2 height2 s).result = some (s.next, s1)
        ∧ s1.visible s.next = true ∧ s1.size s.next = some (width, height)
        ∧ s1.default_size s.next = some (width2, height2)) ∧
    (∀ window, ∃ s1,
        (gtk_compat.window_set_size .gtk3 window width height s).result = some ((), s1)
        ∧ s1.size window = some (width, height)) ∧
    (∀ window, ∃ s1,
        (gtk_compat.window_set_size .gtk4 window width height s).result = some ((), s1)
        ∧ s1.size = s.size ∧ s1.default_size window = some (width, height)) := by
  refine ⟨?_, ?_, fun window => ⟨_, rfl, ?_⟩, fun window => ⟨_, rfl, rfl, ?_⟩⟩
  · simp [resizeScenario, gtk_compat.window_new, gtk_compat.window_set_size,
      gtk_compat.widget_set_visible, gtk_window_new, gtk_window_resize, gtk_widget_show,
      Toolkit.show]
  · simp [resizeScenario, gtk_compat.window_new, gtk_compat.window_set_size,
      gtk_compat.widget_set_visible, gtk_window_new, gtk_window_set_default_size,
      gtk_widget_set_visible, Toolkit.show]
  · simp
  · simp

/-! ## Style rules -/

/-- Claim C10.  Under the newer generation `css_provider_load_from_data` ignores its length
argument: for every provider, every rule text and any two lengths the outcome is the
same, the whole text being loaded.  Under the older generation the length is passed
on to the native loader together with a null error sink, so the first `length` bytes of
the text are loaded, or the whole text when the length is negative. -/
theorem css_provider_load_length (s : Toolkit) (provider : Handle) (data : List Nat) :
    (∀ l1 l2, gtk_compat.css_provider_load_from_data .gtk4 provider data l1 s
        = gtk_compat.css_provider_load_from_data .gtk4 provider data l2 s) ∧
    (∀ length, ∃ s1,
        (gtk_compat.css_provider_load_from_data .gtk4 provider data length s).result
          = some ((), s1) ∧ s1.css_source provider = data) ∧
    (∀ length,
        (gtk_compat.css_provider_load_from_data .gtk3 provider data length s).calls
          = [NativeCall.gtk_css_provider_load_from_data provider data length none]
        ∧ ∃ s1, (gtk_compat.css_provider_load_from_data .gtk3 provider data length s).result
                  = some ((), s1)
            ∧ s1.css_source provider
                = if length < 0 then data else data.take length.toNat) := by
  refine ⟨fun _ _ => rfl, fun _ => ⟨_, rfl, ?_⟩, fun _ => ⟨rfl, _, rfl, ?_⟩⟩
  · simp
  · simp

end Webview
